import Mathlib

/-!
# Verification of the adaptive scraper-health cache

A shallow embedding of `src/utils/cache_manager.py` from the
Community-Real-Estate-Hunter repository, together with theorems settling the
spec's testable properties.

Modelling conventions:
* Python dicts become association lists (`List (String × α)`) with
  first-match lookup, replace-first-or-append assignment and erase; Python
  dicts have unique keys, and these operations agree with dict semantics.
* ISO-8601 timestamps (`datetime.now().isoformat()`) become abstract instants:
  an `Int` parameter `now` threaded through every operation that consults the
  clock.  Session ages are measured in seconds, so `timedelta(hours=24)`
  becomes the constant `86400`.
* Python float arithmetic on failure rates (`failure_count / total` compared
  against the literals `0.1` and `0.3`) is modelled by exact rational
  arithmetic in `ℚ`.
* JSON persistence: `json.dump`/`json.load` (trusted external library) move
  between the in-memory document and disk; the disk is modelled as holding
  the parsed JSON value (`JsonVal`), with a separate marker for a corrupt
  (unparseable) file.
-/

/-! ## Association-list primitives modelling Python dict operations -/

/-- First-match lookup, modelling `d[k]` / `k in d` on a Python dict. -/
def alookup (k : String) : List (String × α) → Option α
  | [] => none
  | (k', v') :: rest => if k' = k then some v' else alookup k rest

/-- Replace-first-or-append, modelling `d[k] = v` on a Python dict. -/
def aset (k : String) (v : α) : List (String × α) → List (String × α)
  | [] => [(k, v)]
  | (k', v') :: rest => if k' = k then (k, v) :: rest else (k', v') :: aset k v rest

/-- Key removal, modelling `del d[k]` on a Python dict. -/
def aerase (k : String) : List (String × α) → List (String × α)
  | [] => []
  | (k', v') :: rest => if k' = k then aerase k rest else (k', v') :: aerase k rest

theorem alookup_aset_self (k : String) (v : α) (l : List (String × α)) :
    alookup k (aset k v l) = some v := by
  induction l with
  | nil => simp [aset, alookup]
  | cons hd tl ih =>
    obtain ⟨k', v'⟩ := hd
    by_cases h : k' = k <;> simp [aset, alookup, h, ih]

theorem alookup_aset_ne (h : k' ≠ k) (v : α) (l : List (String × α)) :
    alookup k' (aset k v l) = alookup k' l := by
  induction l with
  | nil => simp [aset, alookup, h, Ne.symm h]
  | cons hd tl ih =>
    obtain ⟨k'', v''⟩ := hd
    by_cases h2 : k'' = k
    · subst h2
      simp [aset, alookup, Ne.symm h, h]
    · by_cases h3 : k'' = k' <;> simp [aset, alookup, h, Ne.symm h, h2, h3, ih]

theorem alookup_aerase_self (k : String) (l : List (String × α)) :
    alookup k (aerase k l) = none := by
  induction l with
  | nil => simp [aerase, alookup]
  | cons hd tl ih =>
    obtain ⟨k', v'⟩ := hd
    by_cases h : k' = k <;> simp [aerase, alookup, h, ih]

theorem alookup_aerase_ne (h : k' ≠ k) (l : List (String × α)) :
    alookup k' (aerase k l) = alookup k' l := by
  induction l with
  | nil => simp [aerase, alookup]
  | cons hd tl ih =>
    obtain ⟨k'', v''⟩ := hd
    by_cases h2 : k'' = k
    · subst h2
      simp [aerase, alookup, Ne.symm h, ih]
    · by_cases h3 : k'' = k' <;> simp [aerase, alookup, h, Ne.symm h, h2, h3, ih]

/-! ## `CacheStatus` and the health-status derivation

Source: `class CacheStatus(Enum)` and `CachedEntry.failure_rate` /
`CachedEntry.update_status` in `src/utils/cache_manager.py`. -/

/-- Health status of cached entries (`class CacheStatus(Enum)`). -/
inductive CacheStatus where
  | HEALTHY
  | DEGRADED
  | BROKEN
deriving DecidableEq

/-- The string value carried by each enum member. -/
def CacheStatus.value : CacheStatus → String
  | .HEALTHY => "healthy"
  | .DEGRADED => "degraded"
  | .BROKEN => "broken"

/-- Source `CachedEntry.failure_rate`, curried over the two counters:
`total = success_count + failure_count; 0.0 if total == 0 else failure_count / total`. -/
def failure_rate (success_count failure_count : ℕ) : ℚ :=
  let total := success_count + failure_count
  if total = 0 then 0 else (failure_count : ℚ) / (total : ℚ)

/-- Source `CachedEntry.update_status`, curried over the two counters: the status
string the method assigns given the counters.  The float literals `0.1` and
`0.3` of the source are the rationals `1/10` and `3/10`. -/
def statusOf (success_count failure_count : ℕ) : String :=
  let rate := failure_rate success_count failure_count
  if rate = 0 ∨ (success_count > 5 ∧ rate < 1/10) then CacheStatus.HEALTHY.value
  else if rate < 3/10 then CacheStatus.DEGRADED.value
  else CacheStatus.BROKEN.value

/-! ## Cached entries

Source: `@dataclass class CachedEntry` / `class ScraperHashEntry(CachedEntry)`.
The dataclass hierarchy is flattened into one structure; the inherited
health-tracking fields come first, in dataclass field order. -/

/-- Source `ScraperHashEntry`: one cached navigation path, with the health-tracking
fields inherited from `CachedEntry`.  Timestamps are abstract instants. -/
structure ScraperHashEntry where
  discovered_at : Int
  last_used : Int
  success_count : ℕ
  failure_count : ℕ
  status : String
  hash : String
  full_url : String
  bhk_code : Option String
  location_hash : Option String
deriving DecidableEq

/-- Source `CachedEntry.update_status` on a `ScraperHashEntry`: recompute `status`
from the counters ( `statusOf` is that computation, curried). -/
def ScraperHashEntry.update_status (e : ScraperHashEntry) : ScraperHashEntry :=
  { e with status := statusOf e.success_count e.failure_count }

/-- Source `CachedEntry.is_broken` on a `ScraperHashEntry`. -/
def ScraperHashEntry.is_broken (e : ScraperHashEntry) : Bool :=
  e.status = CacheStatus.BROKEN.value

/-! ## The scraper-cache document and operations

Source: `class ScraperCache(BaseCache)`.  `self.data` is the nested JSON
document `{"metadata": {...}, "sites": {site: {location: {bhk: entry}}}}`;
here it is the typed structure `ScraperDoc`.  Every operation that calls
`datetime.now()` takes the current instant `now` as a parameter. -/

/-- The `metadata` block shared by both cache files. -/
structure CacheMetadata where
  version : String
  created_at : Int
  last_updated : Int
deriving DecidableEq

/-- The in-memory document of a `ScraperCache`. -/
structure ScraperDoc where
  metadata : CacheMetadata
  sites : List (String × List (String × List (String × ScraperHashEntry)))
deriving DecidableEq

namespace ScraperCache

/-- Source `ScraperCache._get_empty_structure`. -/
def _get_empty_structure (now : Int) : ScraperDoc :=
  { metadata := { version := "1.0", created_at := now, last_updated := now }
    sites := [] }

/-- Python `str.lower` on one character; `Char.toLower` agrees with it on the
basic-latin characters used as cache keys. -/
def pyStrLower (s : String) : String :=
  ⟨s.data.map Char.toLower⟩

/-- The character map underlying `str.replace(" ", "-")`. -/
def replaceSpaceDashChar (c : Char) : Char :=
  if c = ' ' then '-' else c

/-- Python `str.replace(" ", "-")`: the pattern is a single character, so the
replacement is a character map. -/
def pyReplaceSpaceDash (s : String) : String :=
  ⟨s.data.map replaceSpaceDashChar⟩

/-- Source `ScraperCache._normalize_location`: `location.lower().replace(" ", "-")`. -/
def _normalize_location (location : String) : String :=
  pyReplaceSpaceDash (pyStrLower location)

/-- Raw lookup `self.data["sites"][site][location_key][bhk]` (each missing
level is the `KeyError` path, i.e. `none`). -/
def rawLookup (d : ScraperDoc) (site location_key bhk : String) :
    Option ScraperHashEntry :=
  match alookup site d.sites with
  | none => none
  | some locs =>
    match alookup location_key locs with
    | none => none
    | some bhks => alookup bhk bhks

/-- Raw nested write `self.data["sites"][site][location_key][bhk] = e`,
creating the two intermediate dicts when missing (the
`if site not in ... / if location_key not in ...` preamble of `set`; for the
write-backs in `get` / `mark_success` / `mark_failure` the levels already
exist, so creating-on-missing agrees with the source there too). -/
def writeEntry (d : ScraperDoc) (site location_key bhk : String)
    (e : ScraperHashEntry) : ScraperDoc :=
  let locs := (alookup site d.sites).getD []
  let bhks := (alookup location_key locs).getD []
  { d with sites := aset site (aset location_key (aset bhk e bhks) locs) d.sites }

/-- Source `ScraperCache.get`: look up by normalized key; on a hit stamp
`last_used = now` both in the returned entry and in the stored document
(then `_save`); on a `KeyError` return `None`.  Returns the result together
with the updated document. -/
def get (now : Int) (site location bhk : String) (d : ScraperDoc) :
    Option ScraperHashEntry × ScraperDoc :=
  let location_key := _normalize_location location
  match rawLookup d site location_key bhk with
  | none => (none, d)
  | some entry_data =>
    let entry := { entry_data with last_used := now }
    (some entry, writeEntry d site location_key bhk entry)

/-- Source `ScraperCache._update_metadata`: `metadata["last_updated"] = now`. -/
def _update_metadata (now : Int) (d : ScraperDoc) : ScraperDoc :=
  { d with metadata := { d.metadata with last_updated := now } }

/-- Source `ScraperCache.set`: create or fully replace the entry for the normalized
key with fresh zeroed counters and HEALTHY status, then update the metadata
timestamp and `_save`. -/
def set (now : Int) (site location bhk hash full_url : String)
    (bhk_code location_hash : Option String) (d : ScraperDoc) : ScraperDoc :=
  let location_key := _normalize_location location
  let entry : ScraperHashEntry :=
    { hash := hash
      full_url := full_url
      bhk_code := bhk_code
      location_hash := location_hash
      discovered_at := now
      last_used := now
      success_count := 0
      failure_count := 0
      status := CacheStatus.HEALTHY.value }
  _update_metadata now (writeEntry d site location_key bhk entry)

/-- Source `ScraperCache.mark_success`: `get` the entry (stamping `last_used`); if
present, increment `success_count`, recompute status, and write the two
changed fields back into the stored entry (which `get` just stamped, so the
stored result is exactly `entry1`), then `_save`. -/
def mark_success (now : Int) (site location bhk : String) (d : ScraperDoc) :
    ScraperDoc :=
  match get now site location bhk d with
  | (none, d1) => d1
  | (some entry, d1) =>
    let entry1 := ScraperHashEntry.update_status
      { entry with success_count := entry.success_count + 1 }
    writeEntry d1 site (_normalize_location location) bhk entry1

/-- Source `ScraperCache.mark_failure`: same as `mark_success` with the
`failure_count` counter (the BROKEN warning print has no state effect). -/
def mark_failure (now : Int) (site location bhk : String) (d : ScraperDoc) :
    ScraperDoc :=
  match get now site location bhk d with
  | (none, d1) => d1
  | (some entry, d1) =>
    let entry1 := ScraperHashEntry.update_status
      { entry with failure_count := entry.failure_count + 1 }
    writeEntry d1 site (_normalize_location location) bhk entry1

/-- Source `ScraperCache.has_location`:
`site in self.data["sites"] and location_key in self.data["sites"][site]`. -/
def has_location (site location : String) (d : ScraperDoc) : Bool :=
  let location_key := _normalize_location location
  match alookup site d.sites with
  | none => false
  | some locs => (alookup location_key locs).isSome

/-- Source `ScraperCache.get_all_bhk_types`:
`list(self.data["sites"][site][location_key].keys())`, `[]` on `KeyError`. -/
def get_all_bhk_types (site location : String) (d : ScraperDoc) : List String :=
  let location_key := _normalize_location location
  match alookup site d.sites with
  | none => []
  | some locs =>
    match alookup location_key locs with
    | none => []
    | some bhks => bhks.map Prod.fst

/-- Modelled from the spec: `invalidate(site, location, unit_type)` is absent
from the active `ScraperCache` class (only the commented-out legacy variant
at the top of `cache_manager.py` has one, for a different schema).  Per spec
§4.2: "removes the entry if present; absent key is a silent no-op (not an
error)". -/
def invalidate (site location bhk : String) (d : ScraperDoc) : ScraperDoc :=
  let location_key := _normalize_location location
  match alookup site d.sites with
  | none => d
  | some locs =>
    match alookup location_key locs with
    | none => d
    | some bhks =>
      if (alookup bhk bhks).isSome then
        { d with sites := aset site (aset location_key (aerase bhk bhks) locs) d.sites }
      else d

end ScraperCache

/-! ## The session-cache document and operations

Source: `class SessionCache(BaseCache)`.  Times are abstract instants in
seconds, so the 24-hour validity window `timedelta(hours=24)` is `86400`. -/

/-- A JSON value, as produced by Python's `json` module on the documents this
cache writes (no floats or booleans occur in them). -/
inductive JsonVal where
  | null
  | str (s : String)
  | num (n : Int)
  | arr (elems : List JsonVal)
  | obj (fields : List (String × JsonVal))

/-- The `viewport` dict `{"width": ..., "height": ...}`. -/
structure Viewport where
  width : Int
  height : Int
deriving DecidableEq

/-- One stored browser session, with the fields `SessionCache.set` writes.
`cookies` is an opaque JSON list of cookie dicts. -/
structure SessionEntry where
  cookies : List JsonVal
  user_agent : String
  viewport : Viewport
  created_at : Int
  last_refreshed : Int
  last_used : Int
  usage_count : ℕ
  status : String

/-- The in-memory document of a `SessionCache`. -/
structure SessionDoc where
  metadata : CacheMetadata
  sessions : List (String × SessionEntry)

namespace SessionCache

/-- Source `SessionCache._get_empty_structure`. -/
def _get_empty_structure (now : Int) : SessionDoc :=
  { metadata := { version := "1.0", created_at := now, last_updated := now }
    sessions := [] }

/-- Source `timedelta(hours=24)` in seconds. -/
def twentyFourHours : Int := 24 * 60 * 60

/-- Source `SessionCache._is_session_valid`: `now - last_refreshed < 24 hours`. -/
def _is_session_valid (now : Int) (session : SessionEntry) : Bool :=
  now - session.last_refreshed < twentyFourHours

/-- Source `SessionCache.get`: on a present, unexpired session, bump `usage_count`,
stamp `last_used`, `_save`, and return it; an expired session is reported
absent but its record is left in place; a missing site is the `KeyError`
path.  Returns the result together with the updated document. -/
def get (now : Int) (site : String) (d : SessionDoc) :
    Option SessionEntry × SessionDoc :=
  match alookup site d.sessions with
  | none => (none, d)
  | some session =>
    if _is_session_valid now session then
      let session1 := { session with
        usage_count := session.usage_count + 1
        last_used := now }
      (some session1, { d with sessions := aset site session1 d.sessions })
    else
      (none, d)

/-- Source `SessionCache.set`: full overwrite of the site's session with fresh
timestamps and a zero usage count; `viewport or {"width": 1920, "height": 1080}`. -/
def set (now : Int) (site : String) (cookies : List JsonVal)
    (user_agent : String) (viewport : Option Viewport) (d : SessionDoc) :
    SessionDoc :=
  let session : SessionEntry :=
    { cookies := cookies
      user_agent := user_agent
      viewport := viewport.getD { width := 1920, height := 1080 }
      created_at := now
      last_refreshed := now
      last_used := now
      usage_count := 0
      status := "active" }
  { metadata := { d.metadata with last_updated := now }
    sessions := aset site session d.sessions }

/-- Source `SessionCache.refresh_session`: if the site has a session, stamp
`last_refreshed = now` (cookies untouched) and `_save`. -/
def refresh_session (now : Int) (site : String) (d : SessionDoc) : SessionDoc :=
  match alookup site d.sessions with
  | none => d
  | some session =>
    { d with sessions := aset site { session with last_refreshed := now } d.sessions }

end SessionCache

/-! ## Persistence: `BaseCache._load` / `BaseCache._save`

The disk holds either no file, a corrupt (unparseable) file, or a parsed
JSON value.  `json.dump`/`json.load` are Python's (trusted) JSON library;
the encode/decode functions below spell out how each typed document
corresponds to the JSON document shape given in spec §6. -/

/-- State of the on-disk cache file. -/
inductive DiskFile where
  | absent
  | corrupt
  | parsed (j : JsonVal)

namespace BaseCache

/-- Source `BaseCache._load`: return the parsed file content if the file exists and
parses; on `json.JSONDecodeError` print a warning and return the empty
structure; if the file does not exist, return the empty structure. -/
def _load (empty : JsonVal) : DiskFile → JsonVal
  | .absent => empty
  | .corrupt => empty
  | .parsed j => j

/-- Source `BaseCache._save`: serialize the in-memory document onto the disk. -/
def _save (j : JsonVal) : DiskFile :=
  .parsed j

end BaseCache

/-- Source `None`/string fields (`bhk_code`, `location_hash`) as JSON. -/
def encodeOptStr : Option String → JsonVal
  | none => .null
  | some s => .str s

def decodeOptStr : JsonVal → Option (Option String)
  | .null => some none
  | .str s => some (some s)
  | _ => none

/-- Counters as JSON numbers. -/
def decodeNat : JsonVal → Option ℕ
  | .num n => if 0 ≤ n then some n.toNat else none
  | _ => none

/-- Source `asdict(entry)` for a `ScraperHashEntry`, in dataclass field order. -/
def encodeEntry (e : ScraperHashEntry) : JsonVal :=
  .obj [("discovered_at", .num e.discovered_at),
        ("last_used", .num e.last_used),
        ("success_count", .num e.success_count),
        ("failure_count", .num e.failure_count),
        ("status", .str e.status),
        ("hash", .str e.hash),
        ("full_url", .str e.full_url),
        ("bhk_code", encodeOptStr e.bhk_code),
        ("location_hash", encodeOptStr e.location_hash)]

/-- Reading a persisted entry back (`ScraperHashEntry(**entry_data)`). -/
def decodeEntry : JsonVal → Option ScraperHashEntry
  | .obj [("discovered_at", .num da), ("last_used", .num lu),
          ("success_count", sc), ("failure_count", fc),
          ("status", .str st), ("hash", .str h), ("full_url", .str fu),
          ("bhk_code", bc), ("location_hash", lh)] =>
    match decodeNat sc, decodeNat fc, decodeOptStr bc, decodeOptStr lh with
    | some sc', some fc', some bc', some lh' =>
      some { discovered_at := da, last_used := lu, success_count := sc',
             failure_count := fc', status := st, hash := h, full_url := fu,
             bhk_code := bc', location_hash := lh' }
    | _, _, _, _ => none
  | _ => none

/-- The `metadata` block as JSON. -/
def encodeMetadata (m : CacheMetadata) : JsonVal :=
  .obj [("version", .str m.version),
        ("created_at", .num m.created_at),
        ("last_updated", .num m.last_updated)]

def decodeMetadata : JsonVal → Option CacheMetadata
  | .obj [("version", .str v), ("created_at", .num ca), ("last_updated", .num lu)] =>
    some { version := v, created_at := ca, last_updated := lu }
  | _ => none

/-- One `{bhk: entry}` level of the scraper document. -/
def encodeBhks (bhks : List (String × ScraperHashEntry)) : List (String × JsonVal) :=
  bhks.map (fun p => (p.1, encodeEntry p.2))

def decodeBhks : List (String × JsonVal) → Option (List (String × ScraperHashEntry))
  | [] => some []
  | (k, j) :: rest =>
    match decodeEntry j, decodeBhks rest with
    | some e, some es => some ((k, e) :: es)
    | _, _ => none

/-- One `{location: {bhk: entry}}` level of the scraper document. -/
def encodeLocs (locs : List (String × List (String × ScraperHashEntry)))
    : List (String × JsonVal) :=
  locs.map (fun p => (p.1, .obj (encodeBhks p.2)))

def decodeLocs : List (String × JsonVal)
    → Option (List (String × List (String × ScraperHashEntry)))
  | [] => some []
  | (k, .obj j) :: rest =>
    match decodeBhks j, decodeLocs rest with
    | some bs, some ls => some ((k, bs) :: ls)
    | _, _ => none
  | _ => none

/-- The `sites` mapping of the scraper document. -/
def encodeSites (sites : List (String × List (String × List (String × ScraperHashEntry))))
    : List (String × JsonVal) :=
  sites.map (fun p => (p.1, .obj (encodeLocs p.2)))

def decodeSites : List (String × JsonVal)
    → Option (List (String × List (String × List (String × ScraperHashEntry))))
  | [] => some []
  | (k, .obj j) :: rest =>
    match decodeLocs j, decodeSites rest with
    | some ls, some ss => some ((k, ls) :: ss)
    | _, _ => none
  | _ => none

/-- The whole persisted scraper-cache document (spec §6 shape). -/
def encodeScraperDoc (d : ScraperDoc) : JsonVal :=
  .obj [("metadata", encodeMetadata d.metadata),
        ("sites", .obj (encodeSites d.sites))]

def decodeScraperDoc : JsonVal → Option ScraperDoc
  | .obj [("metadata", m), ("sites", .obj s)] =>
    match decodeMetadata m, decodeSites s with
    | some md, some ss => some { metadata := md, sites := ss }
    | _, _ => none
  | _ => none

/-- One stored browser session as JSON, in the field order of
`SessionCache.set`. -/
def encodeSessionEntry (s : SessionEntry) : JsonVal :=
  .obj [("cookies", .arr s.cookies),
        ("user_agent", .str s.user_agent),
        ("viewport", .obj [("width", .num s.viewport.width),
                           ("height", .num s.viewport.height)]),
        ("created_at", .num s.created_at),
        ("last_refreshed", .num s.last_refreshed),
        ("last_used", .num s.last_used),
        ("usage_count", .num s.usage_count),
        ("status", .str s.status)]

def decodeSessionEntry : JsonVal → Option SessionEntry
  | .obj [("cookies", .arr ck), ("user_agent", .str ua),
          ("viewport", .obj [("width", .num w), ("height", .num h)]),
          ("created_at", .num ca), ("last_refreshed", .num lr),
          ("last_used", .num lu), ("usage_count", uc), ("status", .str st)] =>
    match decodeNat uc with
    | some uc' =>
      some { cookies := ck, user_agent := ua,
             viewport := { width := w, height := h },
             created_at := ca, last_refreshed := lr, last_used := lu,
             usage_count := uc', status := st }
    | none => none
  | _ => none

def encodeSessions (sessions : List (String × SessionEntry)) : List (String × JsonVal) :=
  sessions.map (fun p => (p.1, encodeSessionEntry p.2))

def decodeSessions : List (String × JsonVal) → Option (List (String × SessionEntry))
  | [] => some []
  | (k, j) :: rest =>
    match decodeSessionEntry j, decodeSessions rest with
    | some s, some ss => some ((k, s) :: ss)
    | _, _ => none

/-- The whole persisted session-cache document (spec §6 shape). -/
def encodeSessionDoc (d : SessionDoc) : JsonVal :=
  .obj [("metadata", encodeMetadata d.metadata),
        ("sessions", .obj (encodeSessions d.sessions))]

def decodeSessionDoc : JsonVal → Option SessionDoc
  | .obj [("metadata", m), ("sessions", .obj s)] =>
    match decodeMetadata m, decodeSessions s with
    | some md, some ss => some { metadata := md, sessions := ss }
    | _, _ => none
  | _ => none

/-! ## Reachable scraper-cache states

The states a `ScraperCache` document can be in, starting from the empty
structure and applying the public operations of claim C2 with arbitrary
arguments and clock readings. -/

inductive Reachable : ScraperDoc → Prop where
  | empty (now : Int) : Reachable (ScraperCache._get_empty_structure now)
  | set (now : Int) (site location bhk hash full_url : String)
      (bhk_code location_hash : Option String) {d : ScraperDoc} :
      Reachable d →
      Reachable (ScraperCache.set now site location bhk hash full_url bhk_code location_hash d)
  | get (now : Int) (site location bhk : String) {d : ScraperDoc} :
      Reachable d → Reachable (ScraperCache.get now site location bhk d).2
  | mark_success (now : Int) (site location bhk : String) {d : ScraperDoc} :
      Reachable d → Reachable (ScraperCache.mark_success now site location bhk d)
  | mark_failure (now : Int) (site location bhk : String) {d : ScraperDoc} :
      Reachable d → Reachable (ScraperCache.mark_failure now site location bhk d)

/-! ## Helper lemmas -/

namespace ScraperCache

/-- A nested write hits exactly its own key and leaves every other key as it
was. -/
theorem rawLookup_writeEntry (d : ScraperDoc) (s l b s' l' b' : String)
    (e : ScraperHashEntry) :
    rawLookup (writeEntry d s l b e) s' l' b' =
      if s' = s ∧ l' = l ∧ b' = b then some e
      else rawLookup d s' l' b' := by
  by_cases hs : s' = s
  · subst hs
    by_cases hl : l' = l
    · subst hl
      by_cases hb : b' = b
      · subst hb
        simp [writeEntry, rawLookup, alookup_aset_self]
      · simp only [writeEntry, rawLookup, alookup_aset_self, hb, and_false, if_false]
        rw [alookup_aset_ne hb]
        cases hsd : alookup s' d.sites with
        | none => simp [hsd, alookup]
        | some locs =>
          cases hld : alookup l' locs with
          | none => simp [hsd, hld, alookup]
          | some bhks => simp [hsd, hld]
    · simp only [writeEntry, rawLookup, alookup_aset_self, hl, false_and, and_false, if_false]
      rw [alookup_aset_ne hl]
      cases hsd : alookup s' d.sites with
      | none => simp [hsd, alookup]
      | some locs => simp [hsd]
  · simp only [writeEntry, rawLookup, hs, false_and, if_false]
    rw [alookup_aset_ne hs]

end ScraperCache

/-- Source `update_status` only touches the `status` field, and sets it to the pure
derivation of the counters. -/
theorem update_status_spec (e : ScraperHashEntry) :
    e.update_status =
      { e with status := statusOf e.success_count e.failure_count } := rfl

/-- Zero attempts derive HEALTHY. -/
theorem statusOf_zero_zero : statusOf 0 0 = CacheStatus.HEALTHY.value := by
  simp [statusOf, failure_rate]

namespace ScraperCache

/-- Characterization of `get` on a missing key. -/
theorem get_none {d : ScraperDoc} {site location bhk : String} (now : Int)
    (h : rawLookup d site (_normalize_location location) bhk = none) :
    get now site location bhk d = (none, d) := by
  simp [get, h]

/-- Characterization of `get` on a present key. -/
theorem get_some {d : ScraperDoc} {site location bhk : String}
    {e0 : ScraperHashEntry} (now : Int)
    (h : rawLookup d site (_normalize_location location) bhk = some e0) :
    get now site location bhk d =
      (some { e0 with last_used := now },
       writeEntry d site (_normalize_location location) bhk
         { e0 with last_used := now }) := by
  simp [get, h]

/-- Source `_update_metadata` does not touch `sites`. -/
theorem rawLookup_update_metadata (now : Int) (d : ScraperDoc)
    (s l b : String) :
    rawLookup (_update_metadata now d) s l b = rawLookup d s l b := rfl

end ScraperCache

/-- The C2 invariant: every stored entry's `status` equals the pure
derivation applied to its counters. -/
def StatusInvariant (d : ScraperDoc) : Prop :=
  ∀ site location_key bhk e,
    ScraperCache.rawLookup d site location_key bhk = some e →
    e.status = statusOf e.success_count e.failure_count

theorem statusInvariant_empty (now : Int) :
    StatusInvariant (ScraperCache._get_empty_structure now) := by
  intro site lk bhk e h
  simp [ScraperCache.rawLookup, ScraperCache._get_empty_structure, alookup] at h

theorem statusInvariant_set
    (now : Int) (site location bhk hash full_url : String)
    (bhk_code location_hash : Option String) {d : ScraperDoc}
    (hd : StatusInvariant d) :
    StatusInvariant (ScraperCache.set now site location bhk hash full_url
      bhk_code location_hash d) := by
  intro s' l' b' e h
  rw [ScraperCache.set] at h
  rw [ScraperCache.rawLookup_update_metadata,
      ScraperCache.rawLookup_writeEntry] at h
  split at h
  · cases h
    exact statusOf_zero_zero.symm
  · exact hd s' l' b' e h

theorem statusInvariant_get (now : Int) (site location bhk : String)
    {d : ScraperDoc} (hd : StatusInvariant d) :
    StatusInvariant (ScraperCache.get now site location bhk d).2 := by
  intro s' l' b' e h
  cases hr : ScraperCache.rawLookup d site
      (ScraperCache._normalize_location location) bhk with
  | none =>
    rw [ScraperCache.get_none now hr] at h
    exact hd s' l' b' e h
  | some e0 =>
    rw [ScraperCache.get_some now hr] at h
    simp only [ScraperCache.rawLookup_writeEntry] at h
    split at h
    · cases h
      exact hd site _ bhk e0 hr
    · exact hd s' l' b' e h

theorem statusInvariant_mark_success (now : Int) (site location bhk : String)
    {d : ScraperDoc} (hd : StatusInvariant d) :
    StatusInvariant (ScraperCache.mark_success now site location bhk d) := by
  intro s' l' b' e h
  rw [ScraperCache.mark_success] at h
  cases hr : ScraperCache.rawLookup d site
      (ScraperCache._normalize_location location) bhk with
  | none =>
    rw [ScraperCache.get_none now hr] at h
    exact hd s' l' b' e h
  | some e0 =>
    rw [ScraperCache.get_some now hr] at h
    simp only [ScraperCache.rawLookup_writeEntry] at h
    split at h
    · cases h
      rfl
    · exact hd s' l' b' e h

theorem statusInvariant_mark_failure (now : Int) (site location bhk : String)
    {d : ScraperDoc} (hd : StatusInvariant d) :
    StatusInvariant (ScraperCache.mark_failure now site location bhk d) := by
  intro s' l' b' e h
  rw [ScraperCache.mark_failure] at h
  cases hr : ScraperCache.rawLookup d site
      (ScraperCache._normalize_location location) bhk with
  | none =>
    rw [ScraperCache.get_none now hr] at h
    exact hd s' l' b' e h
  | some e0 =>
    rw [ScraperCache.get_some now hr] at h
    simp only [ScraperCache.rawLookup_writeEntry] at h
    split at h
    · cases h
      rfl
    · exact hd s' l' b' e h

theorem statusInvariant_reachable {d : ScraperDoc} (h : Reachable d) :
    StatusInvariant d := by
  induction h with
  | empty now => exact statusInvariant_empty now
  | set now site location bhk hash full_url bhk_code location_hash _ ih =>
    exact statusInvariant_set now site location bhk hash full_url bhk_code location_hash ih
  | get now site location bhk _ ih => exact statusInvariant_get now site location bhk ih
  | mark_success now site location bhk _ ih =>
    exact statusInvariant_mark_success now site location bhk ih
  | mark_failure now site location bhk _ ih =>
    exact statusInvariant_mark_failure now site location bhk ih

/-! ## Idempotence of location normalization (C6) -/

theorem char_toNat_ofNat {n : ℕ} (h : n < 55296) : (Char.ofNat n).toNat = n := by
  have hv : n.isValidChar := Or.inl h
  unfold Char.ofNat
  rw [dif_pos hv]
  rfl

theorem toLower_idem (c : Char) : c.toLower.toLower = c.toLower := by
  unfold Char.toLower
  by_cases h : c.toNat ≥ 65 ∧ c.toNat ≤ 90
  · rw [if_pos h]
    have h32 : (Char.ofNat (c.toNat + 32)).toNat = c.toNat + 32 :=
      char_toNat_ofNat (by omega)
    rw [h32, if_neg (by omega)]
  · rw [if_neg h, if_neg h]

/-- Lower-casing never produces a space (it only moves `A`–`Z` down by 32,
and those land in `a`–`z`). -/
theorem replaceSpaceDashChar_toLower_ne_space (c : Char)
    (h : c ≠ ' ') : c.toLower ≠ ' ' := by
  unfold Char.toLower
  by_cases hc : c.toNat ≥ 65 ∧ c.toNat ≤ 90
  · rw [if_pos hc]
    intro he
    have : (Char.ofNat (c.toNat + 32)).toNat = c.toNat + 32 :=
      char_toNat_ofNat (by omega)
    rw [he] at this
    have hsp32 : (' ' : Char).toNat = 32 := rfl
    rw [hsp32] at this
    omega
  · rwa [if_neg hc]

/-- Per-character idempotence of the composite normalization map. -/
theorem normChar_idem (c : Char) :
    ScraperCache.replaceSpaceDashChar ((ScraperCache.replaceSpaceDashChar c.toLower).toLower) =
      ScraperCache.replaceSpaceDashChar c.toLower := by
  by_cases hsp : c.toLower = ' '
  · rw [hsp]
    decide
  · have hrepl : ScraperCache.replaceSpaceDashChar c.toLower = c.toLower := by
      simp [ScraperCache.replaceSpaceDashChar, hsp]
    rw [hrepl, toLower_idem]
    exact hrepl

/-- Location-key normalization is idempotent. -/
theorem normalize_location_idem (location : String) :
    ScraperCache._normalize_location (ScraperCache._normalize_location location) =
      ScraperCache._normalize_location location := by
  unfold ScraperCache._normalize_location ScraperCache.pyStrLower
    ScraperCache.pyReplaceSpaceDash
  dsimp only
  congr 1
  simp only [List.map_map]
  apply List.map_congr_left
  intro c _
  simp only [Function.comp]
  exact normChar_idem c

/-! ## Claims -/

/-- C1: The status derivation is a pure function of the two counters: for all
non-negative integers s, f with s+f>0, status(s,f) is HEALTHY iff f==0 or
(s>5 and f/(s+f)<0.10); DEGRADED iff not HEALTHY and f/(s+f)<0.30; otherwise
BROKEN; and when s=f=0 the failure rate is defined as 0, so status is
HEALTHY. -/
theorem claim_c1_status_derivation (s f : ℕ) (h : 0 < s + f) :
    (statusOf s f = CacheStatus.HEALTHY.value ↔
      (f = 0 ∨ (s > 5 ∧ (f : ℚ) / ((s : ℚ) + (f : ℚ)) < 1/10))) ∧
    (statusOf s f = CacheStatus.DEGRADED.value ↔
      (¬(f = 0 ∨ (s > 5 ∧ (f : ℚ) / ((s : ℚ) + (f : ℚ)) < 1/10)) ∧
        (f : ℚ) / ((s : ℚ) + (f : ℚ)) < 3/10)) ∧
    (statusOf s f = CacheStatus.BROKEN.value ↔
      (¬(f = 0 ∨ (s > 5 ∧ (f : ℚ) / ((s : ℚ) + (f : ℚ)) < 1/10)) ∧
        ¬((f : ℚ) / ((s : ℚ) + (f : ℚ)) < 3/10))) ∧
    (failure_rate 0 0 = 0 ∧ statusOf 0 0 = CacheStatus.HEALTHY.value) := by
  have htot : s + f ≠ 0 := Nat.pos_iff_ne_zero.mp h
  have hpos : (0 : ℚ) < (s : ℚ) + (f : ℚ) := by exact_mod_cast h
  have hrate : failure_rate s f = (f : ℚ) / ((s : ℚ) + (f : ℚ)) := by
    unfold failure_rate
    rw [if_neg htot]
    push_cast
    ring_nf
  have hf0 : ((f : ℚ) / ((s : ℚ) + (f : ℚ)) = 0) ↔ f = 0 := by
    rw [div_eq_zero_iff]
    simp [ne_of_gt hpos]
  refine ⟨?_, ?_, ?_, by simp [failure_rate], statusOf_zero_zero⟩ <;>
    · simp only [statusOf, hrate, hf0, CacheStatus.value]
      split_ifs with hA hB <;>
        first
          | exact iff_of_true rfl (by tauto)
          | exact iff_of_false (by decide) (by tauto)

theorem claim_c1_status_derivation_witness :
    0 < 10 + 2 ∧ statusOf 10 2 = CacheStatus.DEGRADED.value :=
  ⟨by decide, ((claim_c1_status_derivation 10 2 (by decide)).2.1).mpr (by norm_num)⟩

/-- C2: For every reachable cache state and every operation of the scraper
cache (set, get, mark_success, mark_failure), every stored entry's status
field always equals the pure status derivation applied to its
(success_count, failure_count): set creates the entry with zero counters and
HEALTHY status, and each counter mutation recomputes status before
persisting. -/
theorem claim_c2_status_invariant {d : ScraperDoc} (h : Reachable d)
    (site location_key bhk : String) (e : ScraperHashEntry)
    (hlook : ScraperCache.rawLookup d site location_key bhk = some e) :
    e.status = statusOf e.success_count e.failure_count :=
  statusInvariant_reachable h site location_key bhk e hlook

theorem claim_c2_status_invariant_witness :
    (ScraperCache.rawLookup
        (ScraperCache.set 0 "housing" "Gurugram" "1bhk" "C2P1" "https://x/C2P1"
          none none (ScraperCache._get_empty_structure 0))
        "housing" "gurugram" "1bhk" =
      some { discovered_at := 0, last_used := 0, success_count := 0,
             failure_count := 0, status := "healthy", hash := "C2P1",
             full_url := "https://x/C2P1", bhk_code := none,
             location_hash := none }) ∧
    ("healthy" : String) = statusOf 0 0 :=
  ⟨by decide,
   claim_c2_status_invariant
     (Reachable.set 0 "housing" "Gurugram" "1bhk" "C2P1" "https://x/C2P1"
       none none (Reachable.empty 0))
     "housing" "gurugram" "1bhk"
     { discovered_at := 0, last_used := 0, success_count := 0,
       failure_count := 0, status := "healthy", hash := "C2P1",
       full_url := "https://x/C2P1", bhk_code := none, location_hash := none }
     (by decide)⟩

/-- C3: For every site, location, unit-type key and every hash/full_url
arguments, calling set followed immediately by get on the same key returns a
present entry whose success_count is 0, failure_count is 0, status is
HEALTHY, and whose hash and full_url equal the values passed to set,
regardless of whether an entry for that key existed before (set fully
replaces it). -/
theorem claim_c3_set_then_get
    (now now2 : Int) (site location bhk hash full_url : String)
    (bhk_code location_hash : Option String) (d : ScraperDoc) :
    (ScraperCache.get now2 site location bhk
        (ScraperCache.set now site location bhk hash full_url bhk_code
          location_hash d)).1 =
      some { discovered_at := now, last_used := now2, success_count := 0,
             failure_count := 0, status := CacheStatus.HEALTHY.value,
             hash := hash, full_url := full_url, bhk_code := bhk_code,
             location_hash := location_hash } := by
  have hr : ScraperCache.rawLookup
      (ScraperCache.set now site location bhk hash full_url bhk_code
        location_hash d)
      site (ScraperCache._normalize_location location) bhk =
      some { discovered_at := now, last_used := now, success_count := 0,
             failure_count := 0, status := CacheStatus.HEALTHY.value,
             hash := hash, full_url := full_url, bhk_code := bhk_code,
             location_hash := location_hash } := by
    rw [ScraperCache.set, ScraperCache.rawLookup_update_metadata,
        ScraperCache.rawLookup_writeEntry]
    simp
  rw [ScraperCache.get_some now2 hr]

theorem not_mem_keys_aerase (k : String) (l : List (String × α)) :
    k ∉ (aerase k l).map Prod.fst := by
  induction l with
  | nil => simp [aerase]
  | cons hd tl ih =>
    obtain ⟨k', v'⟩ := hd
    by_cases h : k' = k
    · simp [aerase, h, ih]
    · simp [aerase, h, ih, Ne.symm h]

/-- C4: The scraper cache provides an invalidate operation such that, for
every key, invalidate on an absent key does not raise and leaves the store
unchanged, and invalidate on a present key removes the entry so that a
subsequent get on that key returns absent and the key's unit-type no longer
appears in the unit-type listing for that (site, location).
(`invalidate` itself is modelled from the spec; see its doc comment.) -/
theorem claim_c4_invalidate (site location bhk : String) (d : ScraperDoc) :
    (ScraperCache.rawLookup d site (ScraperCache._normalize_location location)
        bhk = none →
      ScraperCache.invalidate site location bhk d = d) ∧
    (∀ e, ScraperCache.rawLookup d site
        (ScraperCache._normalize_location location) bhk = some e →
      (∀ now, (ScraperCache.get now site location bhk
          (ScraperCache.invalidate site location bhk d)).1 = none) ∧
      bhk ∉ ScraperCache.get_all_bhk_types site location
          (ScraperCache.invalidate site location bhk d)) := by
  constructor
  · intro h
    cases hsd : alookup site d.sites with
    | none => simp [ScraperCache.invalidate, hsd]
    | some locs =>
      cases hld : alookup (ScraperCache._normalize_location location) locs with
      | none => simp [ScraperCache.invalidate, hsd, hld]
      | some bhks =>
        have hbk : alookup bhk bhks = none := by
          simpa [ScraperCache.rawLookup, hsd, hld] using h
        simp [ScraperCache.invalidate, hsd, hld, hbk]
  · intro e h
    cases hsd : alookup site d.sites with
    | none => simp [ScraperCache.rawLookup, hsd] at h
    | some locs =>
      cases hld : alookup (ScraperCache._normalize_location location) locs with
      | none => simp [ScraperCache.rawLookup, hsd, hld] at h
      | some bhks =>
        have hbk : alookup bhk bhks = some e := by
          simpa [ScraperCache.rawLookup, hsd, hld] using h
        have hinv : ScraperCache.invalidate site location bhk d =
            { d with sites :=
                (aset site
                  (aset (ScraperCache._normalize_location location)
                    (aerase bhk bhks) locs) d.sites) } := by
          simp [ScraperCache.invalidate, hsd, hld, hbk]
        constructor
        · intro now
          have hr : ScraperCache.rawLookup
              (ScraperCache.invalidate site location bhk d) site
              (ScraperCache._normalize_location location) bhk = none := by
            rw [hinv]
            simp [ScraperCache.rawLookup, alookup_aset_self, alookup_aerase_self]
          rw [ScraperCache.get_none now hr]
        · rw [hinv]
          simp only [ScraperCache.get_all_bhk_types, alookup_aset_self]
          exact not_mem_keys_aerase bhk bhks

theorem claim_c4_invalidate_witness :
    (ScraperCache.invalidate "housing" "Gurugram" "2bhk"
        (ScraperCache._get_empty_structure 0) =
      ScraperCache._get_empty_structure 0) ∧
    ((ScraperCache.get 7 "housing" "Gurugram" "1bhk"
        (ScraperCache.invalidate "housing" "Gurugram" "1bhk"
          (ScraperCache.set 0 "housing" "Gurugram" "1bhk" "h1" "u1" none none
            (ScraperCache._get_empty_structure 0)))).1 = none) ∧
    "1bhk" ∉ ScraperCache.get_all_bhk_types "housing" "Gurugram"
        (ScraperCache.invalidate "housing" "Gurugram" "1bhk"
          (ScraperCache.set 0 "housing" "Gurugram" "1bhk" "h1" "u1" none none
            (ScraperCache._get_empty_structure 0))) :=
  ⟨(claim_c4_invalidate "housing" "Gurugram" "2bhk"
      (ScraperCache._get_empty_structure 0)).1 (by decide),
   ((claim_c4_invalidate "housing" "Gurugram" "1bhk"
      (ScraperCache.set 0 "housing" "Gurugram" "1bhk" "h1" "u1" none none
        (ScraperCache._get_empty_structure 0))).2
      { discovered_at := 0, last_used := 0, success_count := 0,
        failure_count := 0, status := "healthy", hash := "h1",
        full_url := "u1", bhk_code := none, location_hash := none }
      (by decide)).1 7,
   ((claim_c4_invalidate "housing" "Gurugram" "1bhk"
      (ScraperCache.set 0 "housing" "Gurugram" "1bhk" "h1" "u1" none none
        (ScraperCache._get_empty_structure 0))).2
      { discovered_at := 0, last_used := 0, success_count := 0,
        failure_count := 0, status := "healthy", hash := "h1",
        full_url := "u1", bhk_code := none, location_hash := none }
      (by decide)).2⟩

/-- C5: For every key whose entry is absent, mark_success and mark_failure
are no-ops: they do not raise, create no entry, and leave the cache state
unchanged (in particular has_location for every (site, location) pair is
unchanged). -/
theorem claim_c5_mark_absent_noop (now : Int) (site location bhk : String)
    (d : ScraperDoc)
    (h : ScraperCache.rawLookup d site
      (ScraperCache._normalize_location location) bhk = none) :
    ScraperCache.mark_success now site location bhk d = d ∧
    ScraperCache.mark_failure now site location bhk d = d ∧
    (∀ site' location',
      ScraperCache.has_location site' location'
          (ScraperCache.mark_success now site location bhk d) =
        ScraperCache.has_location site' location' d ∧
      ScraperCache.has_location site' location'
          (ScraperCache.mark_failure now site location bhk d) =
        ScraperCache.has_location site' location' d) := by
  have hs : ScraperCache.mark_success now site location bhk d = d := by
    simp only [ScraperCache.mark_success, ScraperCache.get_none now h]
  have hf : ScraperCache.mark_failure now site location bhk d = d := by
    simp only [ScraperCache.mark_failure, ScraperCache.get_none now h]
  exact ⟨hs, hf, fun site' location' => by rw [hs, hf]; exact ⟨rfl, rfl⟩⟩

theorem claim_c5_mark_absent_noop_witness :
    (ScraperCache.rawLookup (ScraperCache._get_empty_structure 0) "housing"
        (ScraperCache._normalize_location "Gurugram") "1bhk" = none) ∧
    ScraperCache.mark_success 3 "housing" "Gurugram" "1bhk"
        (ScraperCache._get_empty_structure 0) =
      ScraperCache._get_empty_structure 0 ∧
    ScraperCache.mark_failure 3 "housing" "Gurugram" "1bhk"
        (ScraperCache._get_empty_structure 0) =
      ScraperCache._get_empty_structure 0 :=
  ⟨by decide,
   (claim_c5_mark_absent_noop 3 "housing" "Gurugram" "1bhk"
      (ScraperCache._get_empty_structure 0) (by decide)).1,
   (claim_c5_mark_absent_noop 3 "housing" "Gurugram" "1bhk"
      (ScraperCache._get_empty_structure 0) (by decide)).2.1⟩

/-- Source `set` under one location spelling followed by `get` under another hits
the same entry whenever the two spellings normalize to the same key. -/
theorem get_after_set_of_norm_eq (now now2 : Int)
    (site loc1 loc2 bhk hash full_url : String)
    (bhk_code location_hash : Option String) (d : ScraperDoc)
    (hnorm : ScraperCache._normalize_location loc2 =
      ScraperCache._normalize_location loc1) :
    (ScraperCache.get now2 site loc2 bhk
        (ScraperCache.set now site loc1 bhk hash full_url bhk_code
          location_hash d)).1 =
      some { discovered_at := now, last_used := now2, success_count := 0,
             failure_count := 0, status := CacheStatus.HEALTHY.value,
             hash := hash, full_url := full_url, bhk_code := bhk_code,
             location_hash := location_hash } := by
  have hr : ScraperCache.rawLookup
      (ScraperCache.set now site loc1 bhk hash full_url bhk_code
        location_hash d)
      site (ScraperCache._normalize_location loc2) bhk =
      some { discovered_at := now, last_used := now, success_count := 0,
             failure_count := 0, status := CacheStatus.HEALTHY.value,
             hash := hash, full_url := full_url, bhk_code := bhk_code,
             location_hash := location_hash } := by
    rw [hnorm, ScraperCache.set, ScraperCache.rawLookup_update_metadata,
        ScraperCache.rawLookup_writeEntry]
    simp
  rw [ScraperCache.get_some now2 hr]

/-- C6: Location-key normalization (lower-casing and replacing spaces with
hyphens) is idempotent and is applied on every read and write, so for every
site and unit-type, set with location "Sector 56" followed by get with
location "sector-56" (and vice versa) resolves to the same cache entry. -/
theorem claim_c6_normalization :
    (∀ location, ScraperCache._normalize_location
        (ScraperCache._normalize_location location) =
      ScraperCache._normalize_location location) ∧
    ScraperCache._normalize_location "Sector 56" = "sector-56" ∧
    ScraperCache._normalize_location "sector-56" = "sector-56" ∧
    (∀ (now now2 : Int) (site bhk hash full_url : String)
        (bhk_code location_hash : Option String) (d : ScraperDoc),
      (ScraperCache.get now2 site "sector-56" bhk
          (ScraperCache.set now site "Sector 56" bhk hash full_url bhk_code
            location_hash d)).1 =
        some { discovered_at := now, last_used := now2, success_count := 0,
               failure_count := 0, status := CacheStatus.HEALTHY.value,
               hash := hash, full_url := full_url, bhk_code := bhk_code,
               location_hash := location_hash } ∧
      (ScraperCache.get now2 site "Sector 56" bhk
          (ScraperCache.set now site "sector-56" bhk hash full_url bhk_code
            location_hash d)).1 =
        some { discovered_at := now, last_used := now2, success_count := 0,
               failure_count := 0, status := CacheStatus.HEALTHY.value,
               hash := hash, full_url := full_url, bhk_code := bhk_code,
               location_hash := location_hash }) := by
  refine ⟨normalize_location_idem, by decide, by decide, ?_⟩
  intro now now2 site bhk hash full_url bhk_code location_hash d
  exact ⟨get_after_set_of_norm_eq now now2 site "Sector 56" "sector-56" bhk
      hash full_url bhk_code location_hash d (by decide),
    get_after_set_of_norm_eq now now2 site "sector-56" "Sector 56" bhk
      hash full_url bhk_code location_hash d (by decide)⟩

/-- C7: For every cached session, session get returns absent exactly when
now - last_refreshed >= 24 hours; the expired record is left in place rather
than deleted, and a subsequent refresh_session (which sets last_refreshed to
now without altering cookies) makes the same session retrievable again
without calling set. -/
theorem claim_c7_session_expiry (now : Int) (site : String) (d : SessionDoc)
    (s : SessionEntry) (h : alookup site d.sessions = some s) :
    ((SessionCache.get now site d).1 = none ↔
      now - s.last_refreshed ≥ SessionCache.twentyFourHours) ∧
    ((SessionCache.get now site d).1 = none →
      alookup site (SessionCache.get now site d).2.sessions = some s) ∧
    (∀ now2 : Int, now2 - now < SessionCache.twentyFourHours →
      (SessionCache.get now2 site
          (SessionCache.refresh_session now site d)).1 =
        some { s with last_refreshed := now,
                      usage_count := s.usage_count + 1,
                      last_used := now2 }) := by
  refine ⟨?_, ?_, ?_⟩
  · by_cases hv : now - s.last_refreshed < SessionCache.twentyFourHours
    · simp [SessionCache.get, h, SessionCache._is_session_valid, hv]
    · simp [SessionCache.get, h, SessionCache._is_session_valid, hv]
      omega
  · intro hnone
    by_cases hv : now - s.last_refreshed < SessionCache.twentyFourHours
    · simp [SessionCache.get, h, SessionCache._is_session_valid, hv] at hnone
    · simp [SessionCache.get, h, SessionCache._is_session_valid, hv]
  · intro now2 h24
    have hre : SessionCache.refresh_session now site d =
        { d with sessions :=
            (aset site { s with last_refreshed := now } d.sessions) } := by
      simp [SessionCache.refresh_session, h]
    rw [hre]
    simp [SessionCache.get, alookup_aset_self, SessionCache._is_session_valid, h24]

theorem claim_c7_session_expiry_witness :
    (alookup "housing"
        (SessionCache.set 0 "housing" [] "UA" none
          (SessionCache._get_empty_structure 0)).sessions =
      some { cookies := [], user_agent := "UA",
             viewport := { width := 1920, height := 1080 },
             created_at := 0, last_refreshed := 0, last_used := 0,
             usage_count := 0, status := "active" }) ∧
    ((SessionCache.get 90000 "housing"
        (SessionCache.set 0 "housing" [] "UA" none
          (SessionCache._get_empty_structure 0))).1 = none) ∧
    ((SessionCache.get 90000 "housing"
        (SessionCache.refresh_session 90000 "housing"
          (SessionCache.set 0 "housing" [] "UA" none
            (SessionCache._get_empty_structure 0)))).1 =
      some { cookies := [], user_agent := "UA",
             viewport := { width := 1920, height := 1080 },
             created_at := 0, last_refreshed := 90000, last_used := 90000,
             usage_count := 1, status := "active" }) :=
  ⟨rfl,
   (claim_c7_session_expiry 90000 "housing"
      (SessionCache.set 0 "housing" [] "UA" none
        (SessionCache._get_empty_structure 0))
      { cookies := [], user_agent := "UA",
        viewport := { width := 1920, height := 1080 },
        created_at := 0, last_refreshed := 0, last_used := 0,
        usage_count := 0, status := "active" } rfl).1.mpr (by decide),
   (claim_c7_session_expiry 90000 "housing"
      (SessionCache.set 0 "housing" [] "UA" none
        (SessionCache._get_empty_structure 0))
      { cookies := [], user_agent := "UA",
        viewport := { width := 1920, height := 1080 },
        created_at := 0, last_refreshed := 0, last_used := 0,
        usage_count := 0, status := "active" } rfl).2.2 90000 (by decide)⟩

/-- C8: Loading the persisted store never raises on a parse failure: if the
cache file exists but cannot be parsed as JSON, load logs a warning and
returns the fresh empty structure for that cache type instead of propagating
the error. -/
theorem claim_c8_load_corruption (now : Int) :
    BaseCache._load (encodeScraperDoc (ScraperCache._get_empty_structure now))
        DiskFile.corrupt =
      encodeScraperDoc (ScraperCache._get_empty_structure now) ∧
    BaseCache._load (encodeSessionDoc (SessionCache._get_empty_structure now))
        DiskFile.corrupt =
      encodeSessionDoc (SessionCache._get_empty_structure now) ∧
    decodeScraperDoc
        (BaseCache._load
          (encodeScraperDoc (ScraperCache._get_empty_structure now))
          DiskFile.corrupt) =
      some (ScraperCache._get_empty_structure now) ∧
    decodeSessionDoc
        (BaseCache._load
          (encodeSessionDoc (SessionCache._get_empty_structure now))
          DiskFile.corrupt) =
      some (SessionCache._get_empty_structure now) :=
  ⟨rfl, rfl, rfl, rfl⟩

/-! ## Round-trip lemmas for persistence (C9) -/

theorem decodeOptStr_encodeOptStr (o : Option String) :
    decodeOptStr (encodeOptStr o) = some o := by
  cases o <;> rfl

theorem decodeNat_num (n : ℕ) : decodeNat (.num (n : Int)) = some n := by
  simp [decodeNat]

theorem decodeEntry_encodeEntry (e : ScraperHashEntry) :
    decodeEntry (encodeEntry e) = some e := by
  simp [encodeEntry, decodeEntry, decodeOptStr_encodeOptStr, decodeNat_num]

theorem decodeMetadata_encodeMetadata (m : CacheMetadata) :
    decodeMetadata (encodeMetadata m) = some m := rfl

theorem decodeBhks_encodeBhks (l : List (String × ScraperHashEntry)) :
    decodeBhks (encodeBhks l) = some l := by
  induction l with
  | nil => rfl
  | cons hd tl ih =>
    obtain ⟨k, e⟩ := hd
    simp only [encodeBhks] at ih
    simp [encodeBhks, decodeBhks, decodeEntry_encodeEntry, ih]

theorem decodeLocs_encodeLocs
    (l : List (String × List (String × ScraperHashEntry))) :
    decodeLocs (encodeLocs l) = some l := by
  induction l with
  | nil => rfl
  | cons hd tl ih =>
    obtain ⟨k, bs⟩ := hd
    simp only [encodeLocs] at ih
    simp [encodeLocs, decodeLocs, decodeBhks_encodeBhks, ih]

theorem decodeSites_encodeSites
    (l : List (String × List (String × List (String × ScraperHashEntry)))) :
    decodeSites (encodeSites l) = some l := by
  induction l with
  | nil => rfl
  | cons hd tl ih =>
    obtain ⟨k, ls⟩ := hd
    simp only [encodeSites] at ih
    simp [encodeSites, decodeSites, decodeLocs_encodeLocs, ih]

theorem decodeScraperDoc_encodeScraperDoc (d : ScraperDoc) :
    decodeScraperDoc (encodeScraperDoc d) = some d := by
  simp only [encodeScraperDoc, decodeScraperDoc, decodeMetadata_encodeMetadata,
    decodeSites_encodeSites]

set_option maxHeartbeats 1000000 in
theorem decodeSessionEntry_encodeSessionEntry (s : SessionEntry) :
    decodeSessionEntry (encodeSessionEntry s) = some s := by
  simp only [encodeSessionEntry, decodeSessionEntry, decodeNat_num]

theorem decodeSessions_encodeSessions (l : List (String × SessionEntry)) :
    decodeSessions (encodeSessions l) = some l := by
  induction l with
  | nil => rfl
  | cons hd tl ih =>
    obtain ⟨k, s⟩ := hd
    simp only [encodeSessions] at ih
    simp [encodeSessions, decodeSessions, decodeSessionEntry_encodeSessionEntry, ih]

theorem decodeSessionDoc_encodeSessionDoc (d : SessionDoc) :
    decodeSessionDoc (encodeSessionDoc d) = some d := by
  simp only [encodeSessionDoc, decodeSessionDoc, decodeMetadata_encodeMetadata,
    decodeSessions_encodeSessions]

/-- C9: Persistence round-trips: for every in-memory cache document, saving
it to disk and then reloading it (simulating a process restart) yields an
equivalent document, so every key and entry present before persistence is
present with equal contents after reload. -/
theorem claim_c9_roundtrip (now : Int) (d : ScraperDoc) (d2 : SessionDoc) :
    decodeScraperDoc
        (BaseCache._load
          (encodeScraperDoc (ScraperCache._get_empty_structure now))
          (BaseCache._save (encodeScraperDoc d))) = some d ∧
    decodeSessionDoc
        (BaseCache._load
          (encodeSessionDoc (SessionCache._get_empty_structure now))
          (BaseCache._save (encodeSessionDoc d2))) = some d2 ∧
    (∀ site location_key bhk,
      (decodeScraperDoc
          (BaseCache._load
            (encodeScraperDoc (ScraperCache._get_empty_structure now))
            (BaseCache._save (encodeScraperDoc d)))).map
          (fun dd => ScraperCache.rawLookup dd site location_key bhk) =
        some (ScraperCache.rawLookup d site location_key bhk)) := by
  refine ⟨decodeScraperDoc_encodeScraperDoc d,
    decodeSessionDoc_encodeSessionDoc d2, ?_⟩
  intro site location_key bhk
  rw [BaseCache._save, BaseCache._load, decodeScraperDoc_encodeScraperDoc]
  rfl

/-- C10: For every key whose entry is present, mark_success and mark_failure
also update the entry's last_used timestamp to now (because each performs an
internal get, which stamps last_used), while leaving hash, full_url,
bhk_code, location_hash, discovered_at, and the non-incremented counter
unchanged. -/
theorem claim_c10_mark_frame (now : Int) (site location bhk : String)
    (d : ScraperDoc) (e : ScraperHashEntry)
    (h : ScraperCache.rawLookup d site
      (ScraperCache._normalize_location location) bhk = some e) :
    ScraperCache.rawLookup (ScraperCache.mark_success now site location bhk d)
        site (ScraperCache._normalize_location location) bhk =
      some { e with last_used := now,
                    success_count := e.success_count + 1,
                    status := statusOf (e.success_count + 1) e.failure_count } ∧
    ScraperCache.rawLookup (ScraperCache.mark_failure now site location bhk d)
        site (ScraperCache._normalize_location location) bhk =
      some { e with last_used := now,
                    failure_count := e.failure_count + 1,
                    status := statusOf e.success_count (e.failure_count + 1) } := by
  constructor <;>
    simp [ScraperCache.mark_success, ScraperCache.mark_failure,
      ScraperCache.get_some now h, ScraperCache.rawLookup_writeEntry,
      ScraperHashEntry.update_status]

theorem claim_c10_mark_frame_witness :
    (ScraperCache.rawLookup
        (ScraperCache.set 0 "housing" "Gurugram" "1bhk" "h1" "u1" none none
          (ScraperCache._get_empty_structure 0))
        "housing" (ScraperCache._normalize_location "Gurugram") "1bhk" =
      some { discovered_at := 0, last_used := 0, success_count := 0,
             failure_count := 0, status := "healthy", hash := "h1",
             full_url := "u1", bhk_code := none, location_hash := none }) ∧
    ScraperCache.rawLookup
        (ScraperCache.mark_success 5 "housing" "Gurugram" "1bhk"
          (ScraperCache.set 0 "housing" "Gurugram" "1bhk" "h1" "u1" none none
            (ScraperCache._get_empty_structure 0)))
        "housing" (ScraperCache._normalize_location "Gurugram") "1bhk" =
      some { discovered_at := 0, last_used := 5, success_count := 1,
             failure_count := 0, status := statusOf 1 0, hash := "h1",
             full_url := "u1", bhk_code := none, location_hash := none } :=
  ⟨by decide,
   (claim_c10_mark_frame 5 "housing" "Gurugram" "1bhk"
      (ScraperCache.set 0 "housing" "Gurugram" "1bhk" "h1" "u1" none none
        (ScraperCache._get_empty_structure 0))
      { discovered_at := 0, last_used := 0, success_count := 0,
        failure_count := 0, status := "healthy", hash := "h1",
        full_url := "u1", bhk_code := none, location_hash := none }
      (by decide)).1⟩
